import Mathlib

/-
Verification of the spectra telemetry backend (Go) against its
natural-language specification.

The embedding models the core ingestion/query pipeline:
  models/models.go               -> BaseLog and the five record kinds
  services/log_service.go        -> LogService (default-value normalization)
  repository/clickhouse_repository.go -> ClickHouseRepository (per-kind
                                    insert, range select, trace lookup, avg)
  handlers/log_handler.go        -> LogHandler (parameter validation,
                                    time-window resolution)

Modelling conventions:
  - time.Time is an Int counting seconds since the epoch; the Go zero
    value of time.Time corresponds to 0 (IsZero becomes an equality test).
    RFC3339 wire strings carry second precision, so at this granularity
    formatting and reparsing a time is the identity, and
    time.Now().AddDate(0, 0, -1) is now - 86400.
  - json.RawMessage (the extra payload) is a String, stored verbatim.
  - float64 value columns are Rat; the values exercised by the spec
    (10, 20, 30, averages thereof) are exact in both representations.
  - uint16 status is a Nat.
  - Each ClickHouse table is a List of rows in insertion order; an insert
    appends.  ORDER BY timestamp DESC is an explicit sort.  A SELECT that
    the driver completes returns Except.ok; a row-scan failure returns
    Except.error with the wrapped message.  Connectivity failures of the
    store are outside the model.
-/

/-- Common envelope shared by every record kind (models.BaseLog). -/
structure BaseLog where
  timestamp : Int
  projectID : String
  sessionID : String
  traceID   : String
  userID    : String
  url       : String
  referrer  : String
  type      : String
  name      : String
  extra     : String
deriving Repr, DecidableEq

/-- Error log record (models.ErrorLog embeds BaseLog). -/
structure ErrorLog where
  base : BaseLog
  message : String
deriving Repr, DecidableEq

/-- Performance metric record (models.PerformanceMetric). -/
structure PerformanceMetric where
  base : BaseLog
  value : Rat
deriving Repr, DecidableEq

/-- User action record (models.UserAction). -/
structure UserAction where
  base : BaseLog
  message : String
  method : String
  status : Nat
  value : Rat
deriving Repr, DecidableEq

/-- Custom event record (models.CustomEvent). -/
structure CustomEvent where
  base : BaseLog
  message : String
deriving Repr, DecidableEq

/-- Page stay record (models.PageStay). -/
structure PageStay where
  base : BaseLog
  value : Rat
deriving Repr, DecidableEq

namespace LogService

/-- Default filling performed by logService.RecordErrorLog before it calls
repo.SaveErrorLog: a zero timestamp becomes the ingest time, an empty type
becomes "error". -/
def normalizeErrorLog (now : Int) (log : ErrorLog) : ErrorLog :=
  let log1 := if log.base.timestamp = 0 then
    { log with base := { log.base with timestamp := now } } else log
  if log1.base.type = "" then
    { log1 with base := { log1.base with type := "error" } } else log1

/-- Default filling performed by logService.RecordPerformanceMetric: zero
timestamp becomes the ingest time, empty type becomes "performance". -/
def normalizePerformanceMetric (now : Int) (metric : PerformanceMetric) : PerformanceMetric :=
  let m1 := if metric.base.timestamp = 0 then
    { metric with base := { metric.base with timestamp := now } } else metric
  if m1.base.type = "" then
    { m1 with base := { m1.base with type := "performance" } } else m1

/-- Default filling performed by logService.RecordUserAction: zero timestamp
becomes the ingest time, empty type becomes "user". -/
def normalizeUserAction (now : Int) (action : UserAction) : UserAction :=
  let a1 := if action.base.timestamp = 0 then
    { action with base := { action.base with timestamp := now } } else action
  if a1.base.type = "" then
    { a1 with base := { a1.base with type := "user" } } else a1

/-- Default filling performed by logService.RecordCustomEvent: zero timestamp
becomes the ingest time, empty type becomes "custom", empty message becomes
"custom_event". -/
def normalizeCustomEvent (now : Int) (event : CustomEvent) : CustomEvent :=
  let e1 := if event.base.timestamp = 0 then
    { event with base := { event.base with timestamp := now } } else event
  let e2 := if e1.base.type = "" then
    { e1 with base := { e1.base with type := "custom" } } else e1
  if e2.message = "" then { e2 with message := "custom_event" } else e2

/-- Default filling performed by logService.RecordPageStay: zero timestamp
becomes the ingest time, empty type becomes "page_stay", empty name becomes
"page_stay_time". -/
def normalizePageStay (now : Int) (pageStay : PageStay) : PageStay :=
  let p1 := if pageStay.base.timestamp = 0 then
    { pageStay with base := { pageStay.base with timestamp := now } } else pageStay
  let p2 := if p1.base.type = "" then
    { p1 with base := { p1.base with type := "page_stay" } } else p1
  if p2.base.name = "" then
    { p2 with base := { p2.base with name := "page_stay_time" } } else p2

end LogService

/-- Row filter of every range SELECT: project_id equality plus the closed
timestamp interval (timestamp >= startTime AND timestamp <= endTime). -/
def matchesRange (projectID : String) (startTime endTime : Int) (b : BaseLog) : Bool :=
  b.projectID == projectID &&
    decide (startTime ≤ b.timestamp) && decide (b.timestamp ≤ endTime)

/-- Insert a row into a list already sorted by descending timestamp. -/
def insertDesc (ts : α → Int) (r : α) : List α → List α
  | [] => [r]
  | x :: xs => if ts x ≤ ts r then r :: x :: xs else x :: insertDesc ts r xs

/-- ORDER BY timestamp DESC, modelled as an insertion sort. -/
def sortByTimestampDesc (ts : α → Int) : List α → List α
  | [] => []
  | x :: xs => insertDesc ts x (sortByTimestampDesc ts xs)

namespace ClickHouseRepository

/-- SaveErrorLog: INSERT INTO error_logs; an empty Extra payload is replaced
by the empty JSON object before the insert. -/
def SaveErrorLog (tbl : List ErrorLog) (log : ErrorLog) : List ErrorLog :=
  let extraStr := if log.base.extra = "" then "\x7b\x7d" else log.base.extra
  tbl ++ [{ log with base := { log.base with extra := extraStr } }]

/-- GetErrorLogs: SELECT ... FROM error_logs WHERE project_id = ? AND
timestamp >= ? AND timestamp <= ? ORDER BY timestamp DESC.  Every column is
scanned through a pointer, so scanning cannot fail. -/
def GetErrorLogs (tbl : List ErrorLog) (projectID : String) (startTime endTime : Int) :
    Except String (List ErrorLog) :=
  Except.ok (sortByTimestampDesc (fun l => l.base.timestamp)
    (tbl.filter (fun l => matchesRange projectID startTime endTime l.base)))

/-- GetErrorLogByTraceID: SELECT ... FROM error_logs WHERE trace_id = ?
LIMIT 1; sql.ErrNoRows is mapped to (nil, nil), modelled as none.  The
WHERE clause mentions only trace_id. -/
def GetErrorLogByTraceID (tbl : List ErrorLog) (traceID : String) : Option ErrorLog :=
  (tbl.filter (fun l => l.base.traceID == traceID)).head?

/-- SavePerformanceMetric: INSERT INTO performance_metrics; empty Extra is
replaced by the empty JSON object. -/
def SavePerformanceMetric (tbl : List PerformanceMetric) (metric : PerformanceMetric) :
    List PerformanceMetric :=
  let extraStr := if metric.base.extra = "" then "\x7b\x7d" else metric.base.extra
  tbl ++ [{ metric with base := { metric.base with extra := extraStr } }]

/-- GetPerformanceMetrics: range SELECT over performance_metrics, ordered by
timestamp descending; all scan destinations are pointers. -/
def GetPerformanceMetrics (tbl : List PerformanceMetric) (projectID : String)
    (startTime endTime : Int) : Except String (List PerformanceMetric) :=
  Except.ok (sortByTimestampDesc (fun l => l.base.timestamp)
    (tbl.filter (fun l => matchesRange projectID startTime endTime l.base)))

/-- SaveUserAction: INSERT INTO user_actions; empty Extra is replaced by the
empty JSON object. -/
def SaveUserAction (tbl : List UserAction) (action : UserAction) : List UserAction :=
  let extraStr := if action.base.extra = "" then "\x7b\x7d" else action.base.extra
  tbl ++ [{ action with base := { action.base with extra := extraStr } }]

/-- GetUserActions: range SELECT over user_actions.  The source passes
action.Method, action.Status and action.Value to rows.Scan by value, without
the address operator, so database/sql rejects the destination on the first
row and the method returns the wrapped scan error; with no matching rows the
loop body never runs and it returns an empty list. -/
def GetUserActions (tbl : List UserAction) (projectID : String) (startTime endTime : Int) :
    Except String (List UserAction) :=
  match tbl.filter (fun l => matchesRange projectID startTime endTime l.base) with
  | [] => Except.ok []
  | _ :: _ => Except.error "failed to scan user action: destination not a pointer"

/-- SaveCustomEvent: INSERT INTO custom_events; empty Extra is replaced by
the empty JSON object. -/
def SaveCustomEvent (tbl : List CustomEvent) (event : CustomEvent) : List CustomEvent :=
  let extraStr := if event.base.extra = "" then "\x7b\x7d" else event.base.extra
  tbl ++ [{ event with base := { event.base with extra := extraStr } }]

/-- GetCustomEvents: range SELECT over custom_events, ordered by timestamp
descending; all scan destinations are pointers. -/
def GetCustomEvents (tbl : List CustomEvent) (projectID : String)
    (startTime endTime : Int) : Except String (List CustomEvent) :=
  Except.ok (sortByTimestampDesc (fun l => l.base.timestamp)
    (tbl.filter (fun l => matchesRange projectID startTime endTime l.base)))

/-- SavePageStay: INSERT INTO page_stay.  Unlike the other four save
methods, the source passes pageStay.Extra to the insert verbatim, with no
replacement of an empty payload by the empty JSON object. -/
def SavePageStay (tbl : List PageStay) (pageStay : PageStay) : List PageStay :=
  tbl ++ [pageStay]

/-- GetPageStays: range SELECT over page_stay, ordered by timestamp
descending; all scan destinations are pointers. -/
def GetPageStays (tbl : List PageStay) (projectID : String)
    (startTime endTime : Int) : Except String (List PageStay) :=
  Except.ok (sortByTimestampDesc (fun l => l.base.timestamp)
    (tbl.filter (fun l => matchesRange projectID startTime endTime l.base)))

/-- GetAveragePageStay: SELECT avg(value) FROM page_stay with the same
closed project-and-time filter.  The absence of a result row (sql.ErrNoRows,
modelled as the filter matching nothing) yields 0. -/
def GetAveragePageStay (tbl : List PageStay) (projectID : String)
    (startTime endTime : Int) : Rat :=
  let rows := tbl.filter (fun l => matchesRange projectID startTime endTime l.base)
  match rows with
  | [] => 0
  | _ :: _ => (rows.map (fun l => l.value)).sum / rows.length

end ClickHouseRepository

namespace LogService

/-- logService.RecordErrorLog: fill defaults, then insert. -/
def RecordErrorLog (now : Int) (tbl : List ErrorLog) (log : ErrorLog) : List ErrorLog :=
  ClickHouseRepository.SaveErrorLog tbl (normalizeErrorLog now log)

/-- logService.RecordPerformanceMetric: fill defaults, then insert. -/
def RecordPerformanceMetric (now : Int) (tbl : List PerformanceMetric)
    (metric : PerformanceMetric) : List PerformanceMetric :=
  ClickHouseRepository.SavePerformanceMetric tbl (normalizePerformanceMetric now metric)

/-- logService.RecordUserAction: fill defaults, then insert. -/
def RecordUserAction (now : Int) (tbl : List UserAction) (action : UserAction) :
    List UserAction :=
  ClickHouseRepository.SaveUserAction tbl (normalizeUserAction now action)

/-- logService.RecordCustomEvent: fill defaults, then insert. -/
def RecordCustomEvent (now : Int) (tbl : List CustomEvent) (event : CustomEvent) :
    List CustomEvent :=
  ClickHouseRepository.SaveCustomEvent tbl (normalizeCustomEvent now event)

/-- logService.RecordPageStay: fill defaults, then insert. -/
def RecordPageStay (now : Int) (tbl : List PageStay) (pageStay : PageStay) :
    List PageStay :=
  ClickHouseRepository.SavePageStay tbl (normalizePageStay now pageStay)

end LogService

/-- Outcome of one optional time query parameter, as gin and time.Parse see
it: the parameter is absent from the URL, present but rejected by
time.Parse with layout RFC3339, or present and parsed to a time. -/
inductive TimeParam where
  | absent
  | malformed (s : String)
  | valid (t : Int)
deriving Repr, DecidableEq

/-- Message carried by the error that time.Parse returns for a string that
does not parse with the RFC3339 layout; the handlers surface it verbatim in
the 400 response body. -/
def timeParseError (s : String) : String :=
  "cannot parse " ++ s ++ " as RFC3339"

/-- c.DefaultQuery followed by time.Parse: an absent parameter falls back to
the default time (formatted and reparsed, the identity at second
granularity); a malformed value is the parse error; a valid value is the
parsed time. -/
def resolveTimeParam (d : Int) : TimeParam → Except String Int
  | TimeParam.absent => Except.ok d
  | TimeParam.malformed s => Except.error (timeParseError s)
  | TimeParam.valid t => Except.ok t

/-- parseTimeRange from handlers/log_handler.go: start_time defaults to
time.Now().AddDate(0, 0, -1), one day before the ingest-side now; end_time
defaults to time.Now(); either parse failure aborts with the parse error. -/
def parseTimeRange (now : Int) (startP endP : TimeParam) : Except String (Int × Int) :=
  match resolveTimeParam (now - 86400) startP with
  | Except.error e => Except.error e
  | Except.ok s =>
    match resolveTimeParam now endP with
    | Except.error e => Except.error e
    | Except.ok t => Except.ok (s, t)

/-- Query parameters of a read endpoint.  gin's c.Query returns the empty
string both for an absent and for an empty project_id, so one String field
models both. -/
structure QueryParams where
  projectId : String
  startTime : TimeParam
  endTime : TimeParam
deriving Repr, DecidableEq

/-- HTTP outcome of a handler: 400 with an error body, 500 with an error
body, or 200 with a payload. -/
inductive HandlerResponse (α : Type) where
  | badRequest (msg : String)
  | serverError (msg : String)
  | ok (body : α)
deriving Repr, DecidableEq

namespace LogHandler

/-- LogHandler.GetErrorLogs: reject a missing project_id before anything
else, then resolve the time window, then query the store. -/
def GetErrorLogs (now : Int) (params : QueryParams) (tbl : List ErrorLog) :
    HandlerResponse (List ErrorLog) :=
  if params.projectId = "" then HandlerResponse.badRequest "project_id is required"
  else
    match parseTimeRange now params.startTime params.endTime with
    | Except.error e => HandlerResponse.badRequest e
    | Except.ok (s, t) =>
      match ClickHouseRepository.GetErrorLogs tbl params.projectId s t with
      | Except.error _ => HandlerResponse.serverError "Failed to get error logs"
      | Except.ok logs => HandlerResponse.ok logs

/-- LogHandler.GetPerformanceMetrics: same validation order. -/
def GetPerformanceMetrics (now : Int) (params : QueryParams)
    (tbl : List PerformanceMetric) : HandlerResponse (List PerformanceMetric) :=
  if params.projectId = "" then HandlerResponse.badRequest "project_id is required"
  else
    match parseTimeRange now params.startTime params.endTime with
    | Except.error e => HandlerResponse.badRequest e
    | Except.ok (s, t) =>
      match ClickHouseRepository.GetPerformanceMetrics tbl params.projectId s t with
      | Except.error _ => HandlerResponse.serverError "Failed to get performance metrics"
      | Except.ok metrics => HandlerResponse.ok metrics

/-- LogHandler.GetUserActions: same validation order. -/
def GetUserActions (now : Int) (params : QueryParams) (tbl : List UserAction) :
    HandlerResponse (List UserAction) :=
  if params.projectId = "" then HandlerResponse.badRequest "project_id is required"
  else
    match parseTimeRange now params.startTime params.endTime with
    | Except.error e => HandlerResponse.badRequest e
    | Except.ok (s, t) =>
      match ClickHouseRepository.GetUserActions tbl params.projectId s t with
      | Except.error _ => HandlerResponse.serverError "Failed to get user actions"
      | Except.ok actions => HandlerResponse.ok actions

/-- LogHandler.GetCustomEvents: same validation order. -/
def GetCustomEvents (now : Int) (params : QueryParams) (tbl : List CustomEvent) :
    HandlerResponse (List CustomEvent) :=
  if params.projectId = "" then HandlerResponse.badRequest "project_id is required"
  else
    match parseTimeRange now params.startTime params.endTime with
    | Except.error e => HandlerResponse.badRequest e
    | Except.ok (s, t) =>
      match ClickHouseRepository.GetCustomEvents tbl params.projectId s t with
      | Except.error _ => HandlerResponse.serverError "Failed to get custom events"
      | Except.ok events => HandlerResponse.ok events

/-- LogHandler.GetAveragePageStay: reject a missing project_id, resolve the
window, then run the aggregate (whose scan cannot fail in the model). -/
def GetAveragePageStay (now : Int) (params : QueryParams) (tbl : List PageStay) :
    HandlerResponse Rat :=
  if params.projectId = "" then HandlerResponse.badRequest "project_id is required"
  else
    match parseTimeRange now params.startTime params.endTime with
    | Except.error e => HandlerResponse.badRequest e
    | Except.ok (s, t) =>
      HandlerResponse.ok (ClickHouseRepository.GetAveragePageStay tbl params.projectId s t)

end LogHandler

theorem insertDesc_perm (ts : α → Int) (r : α) (l : List α) :
    (insertDesc ts r l).Perm (r :: l) := by
  induction l with
  | nil => simp [insertDesc]
  | cons x xs ih =>
    by_cases h : ts x ≤ ts r
    · simp [insertDesc, h]
    · simp only [insertDesc, if_neg h]
      exact (ih.cons x).trans (List.Perm.swap r x xs)

theorem insertDesc_pairwise (ts : α → Int) (r : α) (l : List α)
    (h : l.Pairwise (fun a b => ts b ≤ ts a)) :
    (insertDesc ts r l).Pairwise (fun a b => ts b ≤ ts a) := by
  induction l with
  | nil => simp [insertDesc]
  | cons x xs ih =>
    rcases List.pairwise_cons.mp h with ⟨hx, hxs⟩
    by_cases hc : ts x ≤ ts r
    · simp only [insertDesc, if_pos hc]
      refine List.pairwise_cons.mpr ⟨?_, h⟩
      intro y hy
      rcases List.mem_cons.mp hy with rfl | hy'
      · exact hc
      · exact (hx y hy').trans hc
    · simp only [insertDesc, if_neg hc]
      refine List.pairwise_cons.mpr ⟨?_, ih hxs⟩
      intro y hy
      have hy2 : y = r ∨ y ∈ xs := by
        have := (insertDesc_perm ts r xs).mem_iff.mp hy
        simpa using this
      rcases hy2 with rfl | hy'
      · exact le_of_lt (lt_of_not_le hc)
      · exact hx y hy'

theorem sortByTimestampDesc_perm (ts : α → Int) (l : List α) :
    (sortByTimestampDesc ts l).Perm l := by
  induction l with
  | nil => simp [sortByTimestampDesc]
  | cons x xs ih =>
    exact (insertDesc_perm ts x _).trans (ih.cons x)

theorem sortByTimestampDesc_pairwise (ts : α → Int) (l : List α) :
    (sortByTimestampDesc ts l).Pairwise (fun a b => ts b ≤ ts a) := by
  induction l with
  | nil => simp [sortByTimestampDesc]
  | cons x xs ih => exact insertDesc_pairwise ts x _ ih

/-- Sample envelope used by concrete witnesses. -/
def sampleBase : BaseLog :=
  { timestamp := 100, projectID := "p", sessionID := "s1", traceID := "t-1",
    userID := "u1", url := "https://example.test/a", referrer := "",
    type := "error", name := "n", extra := "\x7b\x7d" }

/-- Sample already-normalized error log. -/
def e0 : ErrorLog := { base := sampleBase, message := "boom" }

/-- Sample error log with a later timestamp, same project. -/
def eLater : ErrorLog :=
  { e0 with base := { e0.base with timestamp := 150, traceID := "t-2" } }

/-- Sample error log whose extra payload is empty but which is otherwise
already normalized. -/
def eEmptyExtra : ErrorLog := { e0 with base := { e0.base with extra := "" } }

/-- Sample error log carrying trace id t-1 but belonging to another
project. -/
def eOtherProject : ErrorLog :=
  { e0 with base := { e0.base with projectID := "other" } }

/-- Sample already-normalized performance metric. -/
def p0 : PerformanceMetric :=
  { base := { sampleBase with type := "performance", name := "LCP" }, value := 1200 }

/-- Sample already-normalized user action. -/
def u0 : UserAction :=
  { base := { sampleBase with type := "user", name := "click" },
    message := "btn", method := "GET", status := 200, value := 5 }

/-- Sample already-normalized custom event. -/
def c0 : CustomEvent :=
  { base := { sampleBase with type := "custom", name := "evt" },
    message := "custom_event" }

/-- Sample already-normalized page stay. -/
def g0 : PageStay :=
  { base := { sampleBase with type := "page_stay", name := "page_stay_time" },
    value := 10 }

/-- Page stay whose extra payload is empty. -/
def gEmptyExtra : PageStay := { g0 with base := { g0.base with extra := "" } }

theorem normalizeErrorLog_of_normalized (now : Int) (e : ErrorLog)
    (h1 : e.base.timestamp ≠ 0) (h2 : e.base.type ≠ "") :
    LogService.normalizeErrorLog now e = e := by
  simp [LogService.normalizeErrorLog, h1, h2]

theorem normalizePerformanceMetric_of_normalized (now : Int) (p : PerformanceMetric)
    (h1 : p.base.timestamp ≠ 0) (h2 : p.base.type ≠ "") :
    LogService.normalizePerformanceMetric now p = p := by
  simp [LogService.normalizePerformanceMetric, h1, h2]

theorem normalizeUserAction_of_normalized (now : Int) (u : UserAction)
    (h1 : u.base.timestamp ≠ 0) (h2 : u.base.type ≠ "") :
    LogService.normalizeUserAction now u = u := by
  simp [LogService.normalizeUserAction, h1, h2]

theorem normalizeCustomEvent_of_normalized (now : Int) (c : CustomEvent)
    (h1 : c.base.timestamp ≠ 0) (h2 : c.base.type ≠ "") (h3 : c.message ≠ "") :
    LogService.normalizeCustomEvent now c = c := by
  simp [LogService.normalizeCustomEvent, h1, h2, h3]

theorem normalizePageStay_of_normalized (now : Int) (g : PageStay)
    (h1 : g.base.timestamp ≠ 0) (h2 : g.base.type ≠ "") (h3 : g.base.name ≠ "") :
    LogService.normalizePageStay now g = g := by
  simp [LogService.normalizePageStay, h1, h2, h3]

/-- C2: for every record kind, the normalization step replaces a zero
timestamp with the ingest time, an empty type with the fixed per-kind
default (error, performance, user, custom, page_stay), an empty CustomEvent
message with custom_event, an empty PageStay name with page_stay_time,
changes no other field, and, being a total function, never fails. -/
theorem spectra_C2_normalization_defaults (now : Int) (e : ErrorLog)
    (p : PerformanceMetric) (u : UserAction) (c : CustomEvent) (g : PageStay) :
    LogService.normalizeErrorLog now e =
      { e with base := { e.base with
          timestamp := if e.base.timestamp = 0 then now else e.base.timestamp,
          type := if e.base.type = "" then "error" else e.base.type } } ∧
    LogService.normalizePerformanceMetric now p =
      { p with base := { p.base with
          timestamp := if p.base.timestamp = 0 then now else p.base.timestamp,
          type := if p.base.type = "" then "performance" else p.base.type } } ∧
    LogService.normalizeUserAction now u =
      { u with base := { u.base with
          timestamp := if u.base.timestamp = 0 then now else u.base.timestamp,
          type := if u.base.type = "" then "user" else u.base.type } } ∧
    LogService.normalizeCustomEvent now c =
      { c with
          base := { c.base with
            timestamp := if c.base.timestamp = 0 then now else c.base.timestamp,
            type := if c.base.type = "" then "custom" else c.base.type },
          message := if c.message = "" then "custom_event" else c.message } ∧
    LogService.normalizePageStay now g =
      { g with base := { g.base with
          timestamp := if g.base.timestamp = 0 then now else g.base.timestamp,
          type := if g.base.type = "" then "page_stay" else g.base.type,
          name := if g.base.name = "" then "page_stay_time" else g.base.name } } := by
  refine ⟨?_, ?_, ?_, ?_, ?_⟩
  · by_cases h1 : e.base.timestamp = 0 <;> by_cases h2 : e.base.type = "" <;>
      simp [LogService.normalizeErrorLog, h1, h2]
  · by_cases h1 : p.base.timestamp = 0 <;> by_cases h2 : p.base.type = "" <;>
      simp [LogService.normalizePerformanceMetric, h1, h2]
  · by_cases h1 : u.base.timestamp = 0 <;> by_cases h2 : u.base.type = "" <;>
      simp [LogService.normalizeUserAction, h1, h2]
  · by_cases h1 : c.base.timestamp = 0 <;> by_cases h2 : c.base.type = "" <;>
      by_cases h3 : c.message = "" <;>
      simp [LogService.normalizeCustomEvent, h1, h2, h3]
  · by_cases h1 : g.base.timestamp = 0 <;> by_cases h2 : g.base.type = "" <;>
      by_cases h3 : g.base.name = "" <;>
      simp [LogService.normalizePageStay, h1, h2, h3]

/-- C9: for every record kind, normalizing an already-normalized record
(non-zero timestamp, non-empty type, non-empty message for CustomEvent,
non-empty name for PageStay) returns it unchanged in every field. -/
theorem spectra_C9_normalize_idempotent (now : Int) (e : ErrorLog)
    (p : PerformanceMetric) (u : UserAction) (c : CustomEvent) (g : PageStay)
    (he1 : e.base.timestamp ≠ 0) (he2 : e.base.type ≠ "")
    (hp1 : p.base.timestamp ≠ 0) (hp2 : p.base.type ≠ "")
    (hu1 : u.base.timestamp ≠ 0) (hu2 : u.base.type ≠ "")
    (hc1 : c.base.timestamp ≠ 0) (hc2 : c.base.type ≠ "") (hc3 : c.message ≠ "")
    (hg1 : g.base.timestamp ≠ 0) (hg2 : g.base.type ≠ "") (hg3 : g.base.name ≠ "") :
    LogService.normalizeErrorLog now e = e ∧
    LogService.normalizePerformanceMetric now p = p ∧
    LogService.normalizeUserAction now u = u ∧
    LogService.normalizeCustomEvent now c = c ∧
    LogService.normalizePageStay now g = g :=
  ⟨normalizeErrorLog_of_normalized now e he1 he2,
   normalizePerformanceMetric_of_normalized now p hp1 hp2,
   normalizeUserAction_of_normalized now u hu1 hu2,
   normalizeCustomEvent_of_normalized now c hc1 hc2 hc3,
   normalizePageStay_of_normalized now g hg1 hg2 hg3⟩

/-- Witness for C9 at concrete already-normalized records of each kind. -/
theorem spectra_C9_witness :
    LogService.normalizeErrorLog 7 e0 = e0 ∧
    LogService.normalizePerformanceMetric 7 p0 = p0 ∧
    LogService.normalizeUserAction 7 u0 = u0 ∧
    LogService.normalizeCustomEvent 7 c0 = c0 ∧
    LogService.normalizePageStay 7 g0 = g0 :=
  spectra_C9_normalize_idempotent 7 e0 p0 u0 c0 g0 (by decide) (by decide)
    (by decide) (by decide) (by decide) (by decide) (by decide) (by decide)
    (by decide) (by decide) (by decide) (by decide)

/-- C8: the ErrorLog trace lookup returns at most one record (the return is
an Option); when no stored row carries the trace id it returns absence, not
an error, and any returned record is a stored row whose trace id equals the
argument exactly. -/
theorem spectra_C8_trace_lookup (tbl : List ErrorLog) (traceID : String) :
    ((∀ r ∈ tbl, r.base.traceID ≠ traceID) →
      ClickHouseRepository.GetErrorLogByTraceID tbl traceID = none) ∧
    ∀ r : ErrorLog, ClickHouseRepository.GetErrorLogByTraceID tbl traceID = some r →
      r ∈ tbl ∧ r.base.traceID = traceID := by
  constructor
  · intro h
    have hf : tbl.filter (fun l => l.base.traceID == traceID) = [] := by
      apply List.filter_eq_nil_iff.mpr
      intro a ha
      simpa using h a ha
    simp [ClickHouseRepository.GetErrorLogByTraceID, hf]
  · intro r hr
    have hmem : r ∈ tbl.filter (fun l => l.base.traceID == traceID) :=
      List.mem_of_mem_head? hr
    have h2 := List.mem_filter.mp hmem
    exact ⟨h2.1, by simpa using h2.2⟩

/-- Witness for C8: a store holding one record with trace id t-1 answers a
lookup for t-missing with absence. -/
theorem spectra_C8_witness :
    ClickHouseRepository.GetErrorLogByTraceID [e0] "t-missing" = none :=
  (spectra_C8_trace_lookup [e0] "t-missing").1 (by decide)

/-- Rewriting the project id of a stored error log, as the trace lookup
never inspects it. -/
def setProject (projectID : String) (l : ErrorLog) : ErrorLog :=
  { l with base := { l.base with projectID := projectID } }

/-- C10: the trace lookup filters only on the trace_id column: rewriting
every stored project id commutes with the lookup, and a single stored record
with a matching trace id is returned whatever project it belongs to. -/
theorem spectra_C10_trace_lookup_ignores_project (tbl : List ErrorLog)
    (traceID projectID : String) :
    ClickHouseRepository.GetErrorLogByTraceID (tbl.map (setProject projectID)) traceID =
      (ClickHouseRepository.GetErrorLogByTraceID tbl traceID).map (setProject projectID) ∧
    ∀ r : ErrorLog, r.base.traceID = traceID →
      ClickHouseRepository.GetErrorLogByTraceID [r] traceID = some r := by
  constructor
  · unfold ClickHouseRepository.GetErrorLogByTraceID
    rw [List.filter_map, List.head?_map]
    rfl
  · intro r hr
    simp [ClickHouseRepository.GetErrorLogByTraceID, hr]

/-- Witness for C10: a record of project other is returned by the trace
lookup even though no caller-side project restricts it. -/
theorem spectra_C10_witness :
    ClickHouseRepository.GetErrorLogByTraceID [eOtherProject] "t-1" = some eOtherProject :=
  (spectra_C10_trace_lookup_ignores_project [] "t-1" "x").2 eOtherProject (by decide)

/-- C6: every list or aggregate read handler rejects an absent or empty
project_id with the 400 validation response, and the response is the same
whatever the store holds, so no storage operation contributes to it. -/
theorem spectra_C6_missing_project_id (now : Int) (params : QueryParams)
    (tblE : List ErrorLog) (tblP : List PerformanceMetric) (tblU : List UserAction)
    (tblC : List CustomEvent) (tblG : List PageStay)
    (h : params.projectId = "") :
    LogHandler.GetErrorLogs now params tblE =
      HandlerResponse.badRequest "project_id is required" ∧
    LogHandler.GetPerformanceMetrics now params tblP =
      HandlerResponse.badRequest "project_id is required" ∧
    LogHandler.GetUserActions now params tblU =
      HandlerResponse.badRequest "project_id is required" ∧
    LogHandler.GetCustomEvents now params tblC =
      HandlerResponse.badRequest "project_id is required" ∧
    LogHandler.GetAveragePageStay now params tblG =
      HandlerResponse.badRequest "project_id is required" := by
  refine ⟨?_, ?_, ?_, ?_, ?_⟩ <;>
    simp [LogHandler.GetErrorLogs, LogHandler.GetPerformanceMetrics,
      LogHandler.GetUserActions, LogHandler.GetCustomEvents,
      LogHandler.GetAveragePageStay, h]

/-- Query parameters with no project_id and no time window. -/
def qpMissing : QueryParams :=
  { projectId := "", startTime := TimeParam.absent, endTime := TimeParam.absent }

/-- Witness for C6 at concrete parameters lacking project_id. -/
theorem spectra_C6_witness :
    LogHandler.GetErrorLogs 0 qpMissing [] =
      HandlerResponse.badRequest "project_id is required" ∧
    LogHandler.GetPerformanceMetrics 0 qpMissing [] =
      HandlerResponse.badRequest "project_id is required" ∧
    LogHandler.GetUserActions 0 qpMissing [] =
      HandlerResponse.badRequest "project_id is required" ∧
    LogHandler.GetCustomEvents 0 qpMissing [] =
      HandlerResponse.badRequest "project_id is required" ∧
    LogHandler.GetAveragePageStay 0 qpMissing [] =
      HandlerResponse.badRequest "project_id is required" :=
  spectra_C6_missing_project_id 0 qpMissing [] [] [] [] [] rfl

/-- C7: with both time parameters absent the window defaults to the closed
interval from one day before now to now; a malformed start_time or end_time
aborts with the parse error, which the handler surfaces as the 400
validation response. -/
theorem spectra_C7_time_window (now t : Int) (s : String) (endP : TimeParam)
    (params : QueryParams) (tbl : List ErrorLog) :
    parseTimeRange now TimeParam.absent TimeParam.absent =
      Except.ok (now - 86400, now) ∧
    parseTimeRange now (TimeParam.malformed s) endP =
      Except.error (timeParseError s) ∧
    parseTimeRange now TimeParam.absent (TimeParam.malformed s) =
      Except.error (timeParseError s) ∧
    parseTimeRange now (TimeParam.valid t) (TimeParam.malformed s) =
      Except.error (timeParseError s) ∧
    (params.projectId ≠ "" → params.startTime = TimeParam.malformed s →
      LogHandler.GetErrorLogs now params tbl =
        HandlerResponse.badRequest (timeParseError s)) := by
  refine ⟨rfl, rfl, rfl, rfl, ?_⟩
  intro h1 h2
  simp [LogHandler.GetErrorLogs, h1, h2, parseTimeRange, resolveTimeParam]

/-- Witness for C7: a malformed start_time on a request with a project id
produces the 400 parse-error response. -/
theorem spectra_C7_witness :
    LogHandler.GetErrorLogs 0
      { projectId := "p", startTime := TimeParam.malformed "bogus",
        endTime := TimeParam.absent } [] =
      HandlerResponse.badRequest (timeParseError "bogus") :=
  (spectra_C7_time_window 0 0 "bogus" TimeParam.absent
    { projectId := "p", startTime := TimeParam.malformed "bogus",
      endTime := TimeParam.absent } []).2.2.2.2 (by decide) rfl

/-- C5 evaluation: SavePageStay persists an empty extra payload verbatim as
the empty string, while SaveErrorLog on the same shape of input persists the
empty JSON object, so the all-kinds claim fails exactly at PageStay. -/
theorem spectra_C5_page_stay_extra_verbatim :
    (ClickHouseRepository.SavePageStay [] gEmptyExtra).map (fun l => l.base.extra) =
      [""] ∧
    (ClickHouseRepository.SaveErrorLog [] eEmptyExtra).map (fun l => l.base.extra) =
      ["\x7b\x7d"] :=
  ⟨rfl, rfl⟩

/-- C3 evaluation: a user-action range query over a store holding one
matching row returns the scan error instead of the row, because Scan
receives Method, Status and Value by value; with no matching row it returns
the empty list, and the error-log query returns matching rows in descending
timestamp order. -/
theorem spectra_C3_user_action_query_scan_error :
    ClickHouseRepository.GetUserActions [u0] "p" 99 101 =
      Except.error "failed to scan user action: destination not a pointer" ∧
    ClickHouseRepository.GetUserActions [u0] "q" 99 101 = Except.ok [] ∧
    ClickHouseRepository.GetErrorLogs [e0, eLater] "p" 0 1000 =
      Except.ok [eLater, e0] :=
  ⟨rfl, rfl, rfl⟩

/-- C1 counterexample: saving the already-normalized error log whose extra
payload is empty and querying its one-second window returns exactly one
record, but that record carries the empty JSON object in extra while
normalization leaves extra untouched, so it differs from the normalized
input. -/
theorem spectra_C1_counterexample :
    ClickHouseRepository.GetErrorLogs (LogService.RecordErrorLog 999 [] eEmptyExtra)
      "p" 99 101 =
      Except.ok [{ eEmptyExtra with
        base := { eEmptyExtra.base with extra := "\x7b\x7d" } }] ∧
    ({ eEmptyExtra with base := { eEmptyExtra.base with extra := "\x7b\x7d" } } :
        ErrorLog) ≠ LogService.normalizeErrorLog 999 eEmptyExtra :=
  ⟨rfl, by decide⟩

/-- C1 amended: for ErrorLog, PerformanceMetric and CustomEvent, saving a
normalized record whose extra payload is non-empty, and for PageStay saving
any normalized record (SavePageStay persists extra verbatim, so no extra
hypothesis is needed), then querying the closed window of one second around
its timestamp for its project returns exactly that record; for UserAction
the same round trip fails with the scan error because GetUserActions passes
non-pointer destinations to Scan. -/
theorem spectra_C1_roundtrip_amended (now : Int) (e : ErrorLog)
    (p : PerformanceMetric) (c : CustomEvent) (g : PageStay) (u : UserAction)
    (he1 : e.base.timestamp ≠ 0) (he2 : e.base.type ≠ "") (he3 : e.base.extra ≠ "")
    (hp1 : p.base.timestamp ≠ 0) (hp2 : p.base.type ≠ "") (hp3 : p.base.extra ≠ "")
    (hc1 : c.base.timestamp ≠ 0) (hc2 : c.base.type ≠ "") (hc3 : c.message ≠ "")
    (hc4 : c.base.extra ≠ "")
    (hg1 : g.base.timestamp ≠ 0) (hg2 : g.base.type ≠ "") (hg3 : g.base.name ≠ "")
    (hu1 : u.base.timestamp ≠ 0) (hu2 : u.base.type ≠ "") (hu3 : u.base.extra ≠ "") :
    ClickHouseRepository.GetErrorLogs (LogService.RecordErrorLog now [] e)
      e.base.projectID (e.base.timestamp - 1) (e.base.timestamp + 1) =
      Except.ok [e] ∧
    ClickHouseRepository.GetPerformanceMetrics
      (LogService.RecordPerformanceMetric now [] p)
      p.base.projectID (p.base.timestamp - 1) (p.base.timestamp + 1) =
      Except.ok [p] ∧
    ClickHouseRepository.GetCustomEvents (LogService.RecordCustomEvent now [] c)
      c.base.projectID (c.base.timestamp - 1) (c.base.timestamp + 1) =
      Except.ok [c] ∧
    ClickHouseRepository.GetPageStays (LogService.RecordPageStay now [] g)
      g.base.projectID (g.base.timestamp - 1) (g.base.timestamp + 1) =
      Except.ok [g] ∧
    ClickHouseRepository.GetUserActions (LogService.RecordUserAction now [] u)
      u.base.projectID (u.base.timestamp - 1) (u.base.timestamp + 1) =
      Except.error "failed to scan user action: destination not a pointer" := by
  refine ⟨?_, ?_, ?_, ?_, ?_⟩
  · have hsave : LogService.RecordErrorLog now [] e = [e] := by
      simp [LogService.RecordErrorLog, normalizeErrorLog_of_normalized now e he1 he2,
        ClickHouseRepository.SaveErrorLog, he3]
    have hpred : matchesRange e.base.projectID
        (e.base.timestamp - 1) (e.base.timestamp + 1) e.base = true := by
      simp [matchesRange]
    rw [hsave]
    simp [ClickHouseRepository.GetErrorLogs, hpred, sortByTimestampDesc, insertDesc]
  · have hsave : LogService.RecordPerformanceMetric now [] p = [p] := by
      simp [LogService.RecordPerformanceMetric,
        normalizePerformanceMetric_of_normalized now p hp1 hp2,
        ClickHouseRepository.SavePerformanceMetric, hp3]
    have hpred : matchesRange p.base.projectID
        (p.base.timestamp - 1) (p.base.timestamp + 1) p.base = true := by
      simp [matchesRange]
    rw [hsave]
    simp [ClickHouseRepository.GetPerformanceMetrics, hpred, sortByTimestampDesc,
      insertDesc]
  · have hsave : LogService.RecordCustomEvent now [] c = [c] := by
      simp [LogService.RecordCustomEvent,
        normalizeCustomEvent_of_normalized now c hc1 hc2 hc3,
        ClickHouseRepository.SaveCustomEvent, hc4]
    have hpred : matchesRange c.base.projectID
        (c.base.timestamp - 1) (c.base.timestamp + 1) c.base = true := by
      simp [matchesRange]
    rw [hsave]
    simp [ClickHouseRepository.GetCustomEvents, hpred, sortByTimestampDesc,
      insertDesc]
  · have hsave : LogService.RecordPageStay now [] g = [g] := by
      simp [LogService.RecordPageStay,
        normalizePageStay_of_normalized now g hg1 hg2 hg3,
        ClickHouseRepository.SavePageStay]
    have hpred : matchesRange g.base.projectID
        (g.base.timestamp - 1) (g.base.timestamp + 1) g.base = true := by
      simp [matchesRange]
    rw [hsave]
    simp [ClickHouseRepository.GetPageStays, hpred, sortByTimestampDesc, insertDesc]
  · have hsave : LogService.RecordUserAction now [] u = [u] := by
      simp [LogService.RecordUserAction,
        normalizeUserAction_of_normalized now u hu1 hu2,
        ClickHouseRepository.SaveUserAction, hu3]
    have hpred : matchesRange u.base.projectID
        (u.base.timestamp - 1) (u.base.timestamp + 1) u.base = true := by
      simp [matchesRange]
    rw [hsave]
    simp [ClickHouseRepository.GetUserActions, hpred]

/-- Witness for the amended C1 at concrete normalized records with
non-empty extra payloads. -/
theorem spectra_C1_witness :
    ClickHouseRepository.GetErrorLogs (LogService.RecordErrorLog 7 [] e0)
      e0.base.projectID (e0.base.timestamp - 1) (e0.base.timestamp + 1) =
      Except.ok [e0] ∧
    ClickHouseRepository.GetPerformanceMetrics
      (LogService.RecordPerformanceMetric 7 [] p0)
      p0.base.projectID (p0.base.timestamp - 1) (p0.base.timestamp + 1) =
      Except.ok [p0] ∧
    ClickHouseRepository.GetCustomEvents (LogService.RecordCustomEvent 7 [] c0)
      c0.base.projectID (c0.base.timestamp - 1) (c0.base.timestamp + 1) =
      Except.ok [c0] ∧
    ClickHouseRepository.GetPageStays (LogService.RecordPageStay 7 [] g0)
      g0.base.projectID (g0.base.timestamp - 1) (g0.base.timestamp + 1) =
      Except.ok [g0] ∧
    ClickHouseRepository.GetUserActions (LogService.RecordUserAction 7 [] u0)
      u0.base.projectID (u0.base.timestamp - 1) (u0.base.timestamp + 1) =
      Except.error "failed to scan user action: destination not a pointer" :=
  spectra_C1_roundtrip_amended 7 e0 p0 c0 g0 u0 (by decide) (by decide)
    (by decide) (by decide) (by decide) (by decide) (by decide) (by decide)
    (by decide) (by decide) (by decide) (by decide) (by decide) (by decide)
    (by decide) (by decide)
